import Mathlib

/-!
# Verification of the sparc-me `Dataset` core (`sparc_me/core/dataset.py`)

A shallow embedding of the parts of `Dataset` that the checked claims are
about: version normalization, the manifest synchronizer, the mutation
engine (`append`, `set_field`, `update_by_json`), the folder lifecycle
manager (`_add_sample_data`, `delete_data`, `delete_subject`,
`delete_sample`, `_update_sub_sam_nums_in_dataset_description`) and the
in-memory subject index (`get_subject`).

Tables are embedded as lists of rows; pandas `DataFrame` cell access is
embedded as association-list lookup, and the pandas `loc`-setter semantics
(update an existing label, otherwise enlarge the frame with a new row
carrying that label) is embedded explicitly where a claim depends on it.
Collaborator code that lives outside the analysed file
(`sparc_me.core.utils`, the `Metadata` editor) is modelled from the spec's
description of its contract; every such definition is marked in its doc
comment.
-/

set_option autoImplicit false

namespace SparcMe

/-! ## Version normalization (`Dataset._convert_version_format`)

Source, dataset.py lines 167-180:
```
version = version.replace(".", "_")
if "_" not in version:
    version = version + "_0_0"
return version
```
Python `str.replace` with a one-character pattern and one-character
replacement substitutes characters pointwise; `"_" in version` with a
one-character needle is character membership. -/

def convert_version_format (version : String) : String :=
  let v := String.mk (version.data.map fun c => if c = '.' then '_' else c)
  if '_' ∈ v.data then v else v ++ "_0_0"

/-! ## Manifest synchronizer (`Dataset._modify_manifest`)

Source, dataset.py lines 811-867.  A manifest table is a list of rows with
the four canonical columns.  The row written at lines 843-848 carries
`file type = os.path.splitext(fname)[-1].lower()[1:]`; lines 850-855 either
refresh the timestamp of every row whose `filename` equals the computed
relative path (boolean-mask assignment) or append the fresh row. -/

structure ManifestRow where
  filename : String
  description : String
  timestamp : String
  fileType : String
  deriving Repr, DecidableEq

/-- `os.path.splitext(fname)[-1]` for a bare file name (no path separator):
the suffix starting at the last dot, provided at least one character before
that dot is not itself a dot (CPython `genericpath._splitext`). -/
def splitextExt (fname : String) : String :=
  let cs := fname.data
  match cs.reverse.findIdx? (fun c => c = '.') with
  | none => ""
  | some j =>
      let d := cs.length - 1 - j
      if (cs.take d).any (fun c => c ≠ '.') then String.mk (cs.drop d) else ""

/-- `os.path.splitext(fname)[-1].lower()[1:]`: the extension, lowercased,
without the leading dot.  `str.lower` maps characters pointwise and `[1:]`
drops the first character. -/
def fileTypeOf (fname : String) : String :=
  String.mk (((splitextExt fname).data.map Char.toLower).drop 1)

/-- The upsert step of `_modify_manifest` (dataset.py lines 843-855) on the
manifest table: `filePath` is the file's resting path relative to the
dataset root (line 840-841), `ts` the formatted current UTC time.  If some
row already has this `filename`, only the timestamps of the matching rows
are overwritten; otherwise the fresh row is appended. -/
def modify_manifest_rows (df : List ManifestRow) (filePath fname desc ts : String) :
    List ManifestRow :=
  if df.any (fun r => r.filename = filePath) then
    df.map (fun r => if r.filename = filePath then { r with timestamp := ts } else r)
  else
    df ++ [⟨filePath, desc, ts, fileTypeOf fname⟩]

/-- One synchronization call, packaged for folding a whole sequence of
calls: `(filePath, fname, desc, ts)`. -/
def manifestStep (df : List ManifestRow) (c : String × String × String × String) :
    List ManifestRow :=
  modify_manifest_rows df c.1 c.2.1 c.2.2.1 c.2.2.2

/-! ## Dynamic values and error kinds

Python exception kinds raised by the analysed methods. -/

inductive PyError where
  | valueError (msg : String)
  | typeError (msg : String)
  | fileNotFoundError (msg : String)
  | fileExistsError (msg : String)
  | notADirectoryError (msg : String)
  | keyError
  | indexError
  deriving Repr, DecidableEq

/-- A dynamically typed Python argument, for the `isinstance` checks. -/
inductive PyVal where
  | pyInt (i : Int)
  | pyStr (s : String)
  | pyNone
  | pyOther
  deriving Repr, DecidableEq

/-! ## Tables (pandas `DataFrame` cells)

A row is an association list from column name to cell value; a missing
association is a null (`NaN`) cell.  A table carries its column order. -/

/-- A table row: column name to textual cell value; absent = null. -/
abbrev Row := List (String × String)

/-- The cell of row `r` in column `c` (`none` = null): the first
association for `c`. -/
def getCell : Row → String → Option String
  | [], _ => none
  | kv :: r, c => if kv.1 = c then some kv.2 else getCell r c

/-- Overwrite (or create) the cell of row `r` in column `c`. -/
def setCell (r : Row) (c v : String) : Row :=
  if r.any (fun kv => kv.1 = c) then
    r.map (fun kv => if kv.1 = c then (kv.1, v) else kv)
  else r ++ [(c, v)]

structure Table where
  cols : List String
  rows : List Row
  deriving Repr, DecidableEq

/-- Extend a column list with the keys of a row dictionary that are not yet
columns, in first-seen order (pandas adds new columns at the end). -/
def addCols (cols keys : List String) : List String :=
  keys.foldl (fun cs k => if k ∈ cs then cs else cs ++ [k]) cols

/-! ## `Dataset.append` (dataset.py lines 543-590)

`check_row_exist` lives in `sparc_me.core.utils`, which is not part of the
analysed sources. -/

/-- The positions of the rows whose `c` cell equals `v`. -/
def matchingIndices (rows : List Row) (c v : String) : List Nat :=
  (List.range rows.length).filter (fun i => decide (getCell (rows.getD i []) c = some v))

/-- Modelled from the spec: `check_row_exist` (in `sparc_me.core.utils`, not
under src/) looks up the row whose `unique_column` cell equals the unique
value: it returns the row index when exactly one row matches, `-1` when no
row matches, and fails (`ValueError`, surfaced by `append` as the
ambiguous-lookup error of the spec) when more than one row matches. -/
def check_row_exist (rows : List Row) (c v : String) : Except PyError Int :=
  match matchingIndices rows c v with
  | [] => .ok (-1)
  | [i] => .ok (i : Int)
  | _ => .error (.valueError "AmbiguousRow")

/-- Overwrite the cells of row at position `i` with the pairs of `row`,
one `df.loc[i, key] = value` per pair (dataset.py lines 586-587). -/
def mergeRowAt (rows : List Row) (i : Nat) (row : Row) : List Row :=
  rows.set i (row.foldl (fun r kv => setCell r kv.1 kv.2) (rows.getD i []))

/-- `Dataset.append` (dataset.py lines 543-590).  With `check_exist` and no
`unique_column` it raises `ValueError`; otherwise it looks up the unique
row (Python evaluates `row[unique_column]` first, so a row dictionary
missing that key raises `KeyError`, which the `except ValueError` does not
catch).  Index `-1` (no match, or no check) appends the row via
`pd.concat`, which also turns unseen keys into fresh columns; a found index
overwrites that row cell by cell. -/
def append (t : Table) (row : Row) (check_exist : Bool) (unique_column : Option String) :
    Except PyError Table := do
  let row_index : Int ←
    if check_exist then
      match unique_column with
      | none => throw (.valueError
          "Provide which column in metadata_file is unique. Ex: subject_id")
      | some uc =>
          match getCell row uc with
          | none => throw .keyError
          | some uv =>
              match check_row_exist t.rows uc uv with
              | .ok i => pure i
              | .error _ => throw (.valueError
                  "Row values provided does not contain a unique identifier")
    else pure (-1)
  if row_index = -1 then
    pure { cols := addCols t.cols (row.map Prod.fst), rows := t.rows ++ [row] }
  else
    pure { cols := addCols t.cols (row.map Prod.fst),
           rows := mergeRowAt t.rows row_index.toNat row }

/-! ## `Dataset.set_field` (dataset.py lines 466-501)

`set_field` indexes the `DataFrame` by label: `metadata.loc[row_index, header]
= value` after `row_index = row_index - 2`.  A labelled table keeps the
pandas index labels explicitly.  The pandas `loc` setter updates the rows
carrying the label when it exists and otherwise *enlarges* the frame,
appending a new row with that label and null cells elsewhere; it raises no
`ValueError` either way, so the `except ValueError` branch of `set_field`
(the "row does not exists" message) is unreachable for integer indices. -/

structure LTable where
  cols : List String
  rows : List (Int × Row)
  deriving Repr, DecidableEq

/-- pandas `df.loc[label, col] = value`: setting with enlargement. -/
def locSet (t : LTable) (label : Int) (col value : String) : LTable :=
  if t.rows.any (fun lr => lr.1 = label) then
    { cols := addCols t.cols [col],
      rows := t.rows.map (fun lr =>
        if lr.1 = label then (lr.1, setCell lr.2 col value) else lr) }
  else
    { cols := addCols t.cols [col], rows := t.rows ++ [(label, [(col, value)])] }

/-- `Dataset.set_field` (dataset.py lines 466-501) on a loaded table. -/
def set_field (t : LTable) (row_index : PyVal) (header value : String) :
    Except PyError LTable :=
  match row_index with
  | .pyInt k => .ok (locSet t (k - 2) header value)
  | _ => .error (.valueError "row_index should be 'int'.")

/-! ## `Dataset.get_subject` (dataset.py lines 666-682)

The in-memory index `self._subjects` maps subject id to the `Subject`
object (opaque here).  `dict.get` returns `None` for an absent key and
never raises, so the `except` branch (the "Subject not found with ..."
message) is unreachable: an unknown id yields `None`. -/

def get_subject (subjects : List (String × String)) (subject_sds_id : PyVal) :
    Except PyError (Option String) :=
  match subject_sds_id with
  | .pyStr s => .ok ((subjects.find? (fun kv => kv.1 = s)).map (fun kv => kv.2))
  | _ => .error (.valueError
      "Subject not found, please provide a string subject_sds_id!")

/-! ## `Dataset.update_by_json` (dataset.py lines 592-630)

The JSON document is a nested dictionary; affected cells live in the
`Value` column of rows matched by the `Metadata element` column.  The
inner loop writes through the *same* variable `value` that was bound to
the outer dictionary, so the `isinstance(value, list)` test of line 610
inspects the value stored by the *previous* inner iteration (initially the
outer dictionary itself), not the current `value_1`. -/

inductive JsonVal where
  | jstr (s : String)
  | jnum (n : Int)
  | jlist (xs : List JsonVal)
  | jdict (kvs : List (String × JsonVal))

mutual

/-- Python `repr` of a value, as used by `str` on the elements of a list. -/
def pyRepr : JsonVal → String
  | .jstr s => String.singleton (Char.ofNat 39) ++ s ++ String.singleton (Char.ofNat 39)
  | .jnum n => toString n
  | .jlist xs => "[" ++ String.intercalate ", " (pyReprList xs) ++ "]"
  | .jdict kvs => "\x7b" ++ String.intercalate ", " (pyReprKVs kvs) ++ "\x7d"

/-- `repr` of the elements of a list. -/
def pyReprList : List JsonVal → List String
  | [] => []
  | x :: xs => pyRepr x :: pyReprList xs

/-- `repr` of the items of a dictionary. -/
def pyReprKVs : List (String × JsonVal) → List String
  | [] => []
  | (k, v) :: kvs =>
      (String.singleton (Char.ofNat 39) ++ k ++ String.singleton (Char.ofNat 39) ++ ": "
        ++ pyRepr v) :: pyReprKVs kvs

end

/-- Python `str` of a value (`str` of a string is the string itself). -/
def pyStr : JsonVal → String
  | .jstr s => s
  | v => pyRepr v

def isList : JsonVal → Bool
  | .jlist _ => true
  | _ => false

/-- A `dataset_description`-style row: `Metadata element` column plus the
`Value` cell (which may hold a non-string, e.g. a raw list). -/
structure DescRow where
  element : String
  value : JsonVal

/-- `metadata.loc[index, "Value"] = value` where
`index = metadata.index[metadata[quoted element column] == field].tolist()[0]`:
the first row whose element name equals `field` gets the value. -/
def setFirstValue : List DescRow → String → JsonVal → List DescRow
  | [], _, _ => []
  | r :: rs, f, v =>
      if r.element = f then { r with value := v } :: rs else r :: setFirstValue rs f v

/-- The row lookup of dataset.py lines 617/623/627: `tolist()[0]` raises
`IndexError` when no row matches. -/
def update_value (tbl : List DescRow) (field : String) (v : JsonVal) :
    Except PyError (List DescRow) :=
  if tbl.any (fun r => r.element = field) then .ok (setFirstValue tbl field v)
  else .error .indexError

/-- The inner loop of `update_by_json` (dataset.py lines 609-618): `prev` is
the current binding of the Python variable `value`, initially the outer
dictionary; each iteration stringifies `value_1` only when `prev` is a
list, then rebinds `value` to what it stored. -/
def updateInner (tbl : List DescRow) (prev : JsonVal) :
    List (String × JsonVal) → Except PyError (List DescRow)
  | [] => .ok tbl
  | (key1, value1) :: rest => do
      let v := if isList prev then JsonVal.jstr (pyStr value1) else value1
      let tbl1 ← update_value tbl ("    " ++ key1) v
      updateInner tbl1 v rest

/-- `Dataset.update_by_json` (dataset.py lines 592-630) over the parsed
document. -/
def update_by_json (tbl : List DescRow) :
    List (String × JsonVal) → Except PyError (List DescRow)
  | [] => .ok tbl
  | (key, value) :: rest => do
      let tbl1 ←
        match value with
        | .jdict items => updateInner tbl (JsonVal.jdict items) items
        | .jlist xs => update_value tbl key (.jstr (pyStr (.jlist xs)))
        | v => update_value tbl key v
      update_by_json tbl1 rest

/-! ## `Dataset._add_sample_data` (dataset.py lines 746-801): the copy loop

The generic sample-data-add routine iterates `os.listdir(source_path)`;
for each regular file it relocates the file and synchronizes the manifest,
and at the *first* entry that is itself a directory it prints a warning and
returns at once.  A source listing is a list of `(fname, is_dir)` pairs in
listing order. -/

/-- Python `str.replace(pat, rep)` on character lists, driven by fuel (the
length of the subject string bounds the number of steps for a non-empty
pattern). -/
def pyReplaceAux : Nat → List Char → List Char → List Char → List Char
  | 0, cs, _, _ => cs
  | _ + 1, [], _, _ => []
  | n + 1, c :: rest, pat, rep =>
      if pat.isPrefixOf (c :: rest) then
        rep ++ pyReplaceAux n ((c :: rest).drop pat.length) pat rep
      else c :: pyReplaceAux n rest pat rep

def pyReplace (s pat rep : String) : String :=
  String.mk (pyReplaceAux s.data.length s.data pat.data rep.data)

/-- The relative resting path of dataset.py lines 840-841:
`Path(str(os.path.join(destination_path, fname)).replace(manifest_folder,
'')[1:]).as_posix()` for posix inputs. -/
def manifest_rel_path (manifestFolder destination fname : String) : String :=
  String.mk ((pyReplace (destination ++ "/" ++ fname) manifestFolder "").data.drop 1)

/-- Result of the copy loop: files relocated (in order), manifest table,
and whether the nested-directory warning fired. -/
structure AddResult where
  copied : List String
  manifest : List ManifestRow
  warned : Bool
  deriving Repr, DecidableEq

/-- The directory-source loop of `_add_sample_data` (dataset.py lines
782-795): each regular file is moved (`_move_single_file`) and the
manifest is synchronized (`_modify_manifest`); the first directory entry
prints the warning and returns. -/
def add_sample_data_loop (manifestFolder destination desc ts : String) :
    List (String × Bool) → List ManifestRow → AddResult
  | [], manifest => ⟨[], manifest, false⟩
  | (fname, isDir) :: rest, manifest =>
      if isDir then ⟨[], manifest, true⟩
      else
        let rel := manifest_rel_path manifestFolder destination fname
        let m1 := modify_manifest_rows manifest rel fname desc ts
        let r := add_sample_data_loop manifestFolder destination desc ts rest m1
        ⟨fname :: r.copied, r.manifest, r.warned⟩

/-! ## Filesystem model for the folder lifecycle manager

A filesystem is a list of entries `(path segments, is_file)`; a directory
entry carries `is_file = false`.  Deleting a directory recursively
(`shutil.rmtree`) removes every entry it prefixes. -/

/-- Cell values of the `dataset_description` table (`set_values` writes the
integer `len(...)`). -/
inductive Cell where
  | cnat (n : Nat)
  | cstr (s : String)
  | cnone
  deriving Repr, DecidableEq

/-- A `dataset_description` row: element name and `Value` cell. -/
structure DDRow where
  element : String
  value : Cell
  deriving Repr, DecidableEq

/-- Modelled from the spec: the metadata editor collaborator
(`sparc_me.core.metadata.Metadata`, not under src/) exposes
`set_values(element, values)`, which writes `values` into the Value cell of
the description-table rows whose element name equals `element`. -/
def metadata_set_values (tbl : List DDRow) (element : String) (v : Cell) : List DDRow :=
  tbl.map (fun r => if r.element = element then { r with value := v } else r)

/-- Modelled from the spec: `get_sub_folder_paths_in_folder`
(`sparc_me.core.utils`, not under src/) returns the paths of the immediate
subdirectories of `folder`. -/
def get_sub_folder_paths_in_folder (fs : List (List String × Bool))
    (folder : List String) : List (List String) :=
  (fs.filter (fun e =>
    !e.2 && e.1.length = folder.length + 1 && folder.isPrefixOf e.1)).map (fun e => e.1)

/-- Is `p` a directory of `fs`? (`Path.is_dir`). -/
def fsIsDir (fs : List (List String × Bool)) (p : List String) : Bool :=
  fs.any (fun e => e.1 = p && !e.2)

/-- `Dataset._update_sub_sam_nums_in_dataset_description` (dataset.py lines
991-1006): the subject count is the number of immediate subdirectories of
the primary folder; the sample count sums, over those subject folders,
their own immediate subdirectory counts (the loop keeps the `is_dir`
re-check of line 1000).  Both are written into the description table,
which is then persisted (`save`, reported by the returned flag). -/
def update_sub_sam_nums_in_dataset_description (fs : List (List String × Bool))
    (primary_folder : List String) (dd : List DDRow) : List DDRow × Bool :=
  let subject_folders := get_sub_folder_paths_in_folder fs primary_folder
  let sample_folders := subject_folders.foldl
    (fun acc sub =>
      if fsIsDir fs sub then acc ++ get_sub_folder_paths_in_folder fs sub else acc) []
  let dd1 := metadata_set_values dd "Number of subjects" (.cnat subject_folders.length)
  let dd2 := metadata_set_values dd1 "Number of samples" (.cnat sample_folders.length)
  (dd2, true)

/-! ## Dataset state for the delete operations (dataset.py lines 874-989)

The state gathers the pieces the delete operations read or write: the
dataset root, the filesystem, the manifest table and the three metadata
tables the frame claim is about.  `saved` lists the metadata files
persisted so far by the call (`Metadata.save`). -/

structure DState where
  datasetPath : List String
  fs : List (List String × Bool)
  manifest : List ManifestRow
  subjects : List Row
  samples : List Row
  dataset_description : List DDRow
  subjectIdField : String
  sampleIdField : String
  saved : List String
  deriving Repr, DecidableEq

/-- Modelled from the spec: the metadata editor collaborator exposes
`remove_row(key)`, removing the manifest row(s) whose `filename` equals
`key`. -/
def manifest_remove_row (m : List ManifestRow) (key : String) : List ManifestRow :=
  m.filter (fun r => !(r.filename = key : Bool))

/-- Modelled from the spec: `remove_row(key)` on the subjects or samples
table removes the row(s) whose identifier cell equals `key` (the folder
name). -/
def table_remove_row (rows : List Row) (idField key : String) : List Row :=
  rows.filter (fun r => !(getCell r idField = some key : Bool))

/-- The path made relative to the dataset root (dataset.py lines 973-974):
for a root that prefixes the path, the replace-and-drop-first-separator
computation yields the remaining segments joined by `/`. -/
def relative_to_root (root p : List String) : String :=
  String.intercalate "/" (p.drop root.length)

/-- `Dataset._delete_data` (dataset.py lines 979-989): returns `true` only
when a single file was unlinked; a directory is removed recursively
(`shutil.rmtree`) and reports `false`; a missing path reports `false`. -/
def py_delete_data (s : DState) (p : List String) : DState × Bool :=
  if s.fs.any (fun e => e.1 = p && e.2) then
    ({ s with fs := s.fs.filter (fun e => !(e.1 = p : Bool)) }, true)
  else if s.fs.any (fun e => e.1 = p) then
    ({ s with fs := s.fs.filter (fun e => !(p.isPrefixOf e.1 : Bool)) }, false)
  else (s, false)

/-- `Dataset.delete_data` (dataset.py lines 966-977): a missing path raises
`FileNotFoundError`; when `_delete_data` deleted a single file, the
manifest row matched by the relative path is removed and the manifest is
persisted; a directory deletion leaves the manifest untouched. -/
def delete_data (s : DState) (p : List String) : Except PyError DState :=
  if !(s.fs.any (fun e => e.1 = p)) then
    .error (.fileNotFoundError "The file is not existing")
  else
    let (s1, flag) := py_delete_data s p
    if flag then
      let rel := relative_to_root s1.datasetPath p
      .ok { s1 with manifest := manifest_remove_row s1.manifest rel,
                    saved := s1.saved ++ ["manifest"] }
    else .ok s1

/-- The immediate children of directory `p` (`Path.iterdir`), in the order
of the filesystem listing. -/
def fsChildren (fs : List (List String × Bool)) (p : List String) :
    List (List String × Bool) :=
  fs.filter (fun e => e.1.length = p.length + 1 && p.isPrefixOf e.1)

/-- Recompute the counts under `primary/` and persist the description
table, as `delete_subject`, `delete_sample` and `add_subjects` do. -/
def update_nums_state (s : DState) : DState :=
  let primary := s.datasetPath ++ ["primary"]
  let (dd, _) := update_sub_sam_nums_in_dataset_description s.fs primary
    s.dataset_description
  { s with dataset_description := dd, saved := s.saved ++ ["dataset_description"] }

/-- `Dataset.delete_sample` (dataset.py lines 938-964): validates the path
(missing folder raises `FileExistsError` with the "not existing" message,
a non-directory raises `ValueError`), deletes every item directly inside
via `delete_data`, removes the folder, and only for `data_type
= "primary"` recomputes the counts and removes + persists the matching
samples-table row (keyed by the folder name, the last path segment). -/
def delete_sample (s : DState) (p : List String) (data_type : String) :
    Except PyError DState := do
  if !(s.fs.any (fun e => e.1 = p)) then
    throw (.fileExistsError "The folder is not existing")
  else if !(s.fs.any (fun e => e.1 = p && !e.2)) then
    throw (.valueError "The path is not a folder")
  else
    let items := (fsChildren s.fs p).map (fun e => e.1)
    let s1 ← items.foldlM delete_data s
    let s2 := { s1 with fs := s1.fs.filter (fun e => !(e.1 = p : Bool)) }
    if data_type = "primary" then
      let s3 := update_nums_state s2
      pure { s3 with
        samples := table_remove_row s3.samples s3.sampleIdField (p.getLastD ""),
        saved := s3.saved ++ ["samples"] }
    else
      pure s2

/-- `Dataset.delete_subject` (dataset.py lines 891-921): validates the
path (`ValueError` when missing or not a directory), deletes every sample
subfolder via `delete_sample`, removes the folder, and only for
`data_type = "primary"` recomputes the counts and removes + persists the
matching subjects-table row. -/
def delete_subject (s : DState) (p : List String) (data_type : String) :
    Except PyError DState := do
  if !(s.fs.any (fun e => e.1 = p)) then
    throw (.valueError "The folder is not existing")
  else if !(s.fs.any (fun e => e.1 = p && !e.2)) then
    throw (.valueError "The path is not a folder")
  else
    let samFolders := ((fsChildren s.fs p).filter (fun e => !e.2)).map (fun e => e.1)
    let s1 ← samFolders.foldlM (fun st q => delete_sample st q data_type) s
    let s2 := { s1 with fs := s1.fs.filter (fun e => !(e.1 = p : Bool)) }
    if data_type = "primary" then
      let s3 := update_nums_state s2
      pure { s3 with
        subjects := table_remove_row s3.subjects s3.subjectIdField (p.getLastD ""),
        saved := s3.saved ++ ["subjects"] }
    else
      pure s2

/-- A small concrete dataset state (root `ds`, one primary subject with one
sample holding one file) used to instantiate the stateful theorems. -/
def exampleState : DState :=
  { datasetPath := ["ds"]
  , fs := [(["ds"], false), (["ds", "primary"], false),
           (["ds", "primary", "sub-1"], false),
           (["ds", "primary", "sub-1", "sam-1"], false),
           (["ds", "primary", "sub-1", "sam-1", "a.txt"], true)]
  , manifest := [⟨"primary/sub-1/sam-1/a.txt", "d", "t", "txt"⟩]
  , subjects := [[("subject id", "sub-1")]]
  , samples := [[("sample id", "sam-1")]]
  , dataset_description := [⟨"Number of subjects", .cnat 1⟩, ⟨"Number of samples", .cnat 1⟩]
  , subjectIdField := "subject id"
  , sampleIdField := "sample id"
  , saved := [] }

/-- The filesystem of the count-recompute scenario: primary tree
`sub-1: [sam-1, sam-2], sub-2: [sam-1]`. -/
def exampleFs : List (List String × Bool) :=
  [(["ds"], false), (["ds", "primary"], false),
   (["ds", "primary", "sub-1"], false),
   (["ds", "primary", "sub-1", "sam-1"], false),
   (["ds", "primary", "sub-1", "sam-2"], false),
   (["ds", "primary", "sub-2"], false),
   (["ds", "primary", "sub-2", "sam-1"], false)]

/-- A description table holding the two count rows. -/
def exampleDD : List DDRow :=
  [⟨"Number of subjects", .cnone⟩, ⟨"Number of samples", .cnone⟩]

/-- The state produced by deleting sample `sam-1` of `exampleState` with
`data_type = "derivative"`. -/
def exampleDeleteResult : DState :=
  { exampleState with
      fs := [(["ds"], false), (["ds", "primary"], false),
             (["ds", "primary", "sub-1"], false)],
      manifest := [],
      saved := ["manifest"] }

/-- The non-primary delete operations may touch only the filesystem and the
manifest: every other table field of the state is preserved, and the only
metadata file they may persist is the manifest. -/
def ManifestOnlyFrame (s s2 : DState) : Prop :=
  s2.datasetPath = s.datasetPath ∧
  s2.subjects = s.subjects ∧
  s2.samples = s.samples ∧
  s2.dataset_description = s.dataset_description ∧
  (∀ n ∈ s2.saved, n ∈ s.saved ∨ n = "manifest")

/-! # Theorems -/

/-! ## Helper lemmas for the manifest synchronizer -/

theorem manifest_any_eq_true_of_mem {df : List ManifestRow} {filePath : String}
    (h : filePath ∈ df.map ManifestRow.filename) :
    df.any (fun r => r.filename = filePath) = true := by
  simp only [List.any_eq_true, decide_eq_true_eq]
  obtain ⟨r, hr, hrf⟩ := List.mem_map.mp h
  exact ⟨r, hr, hrf⟩

theorem manifest_any_eq_false_of_not_mem {df : List ManifestRow} {filePath : String}
    (h : filePath ∉ df.map ManifestRow.filename) :
    df.any (fun r => r.filename = filePath) = false := by
  simp only [List.any_eq_false, decide_eq_true_eq]
  intro r hr hrf
  exact h (List.mem_map.mpr ⟨r, hr, hrf⟩)

theorem modify_mem_case {df : List ManifestRow} {filePath fname desc ts : String}
    (h : filePath ∈ df.map ManifestRow.filename) :
    modify_manifest_rows df filePath fname desc ts
      = df.map (fun r => if r.filename = filePath then { r with timestamp := ts } else r) := by
  unfold modify_manifest_rows
  rw [manifest_any_eq_true_of_mem h]
  rfl

theorem modify_not_mem_case {df : List ManifestRow} {filePath fname desc ts : String}
    (h : filePath ∉ df.map ManifestRow.filename) :
    modify_manifest_rows df filePath fname desc ts
      = df ++ [⟨filePath, desc, ts, fileTypeOf fname⟩] := by
  unfold modify_manifest_rows
  rw [manifest_any_eq_false_of_not_mem h]
  rfl

theorem modify_filenames_of_mem (df : List ManifestRow) (filePath fname desc ts : String)
    (h : filePath ∈ df.map ManifestRow.filename) :
    (modify_manifest_rows df filePath fname desc ts).map ManifestRow.filename
      = df.map ManifestRow.filename := by
  rw [modify_mem_case h, List.map_map]
  apply List.map_congr_left
  intro r _
  by_cases h2 : r.filename = filePath <;> simp [h2]

theorem modify_nodup (df : List ManifestRow) (filePath fname desc ts : String)
    (h : (df.map ManifestRow.filename).Nodup) :
    ((modify_manifest_rows df filePath fname desc ts).map ManifestRow.filename).Nodup := by
  by_cases hm : filePath ∈ df.map ManifestRow.filename
  · rw [modify_filenames_of_mem df filePath fname desc ts hm]; exact h
  · rw [modify_not_mem_case hm, List.map_append]
    simp [List.nodup_append, h, hm]

theorem manifest_fold_nodup (calls : List (String × String × String × String)) :
    ∀ df : List ManifestRow, (df.map ManifestRow.filename).Nodup →
      ((calls.foldl manifestStep df).map ManifestRow.filename).Nodup := by
  induction calls with
  | nil => intro df h; exact h
  | cons c cs ih =>
      intro df h
      exact ih (manifestStep df c) (modify_nodup df c.1 c.2.1 c.2.2.1 c.2.2.2 h)

/-! ## C1: manifest upsert invariant -/

/-- C1.  Manifest upsert invariant: a synchronization call on a manifest
table with pairwise-distinct filenames keeps them pairwise distinct (so any
sequence of calls does as well); when the computed filename already has a
row, only timestamps change — filenames, descriptions and file types are
untouched, every matching row gets the new timestamp, and non-matching rows
survive unchanged; when it has no row, exactly the one fresh row is
appended, carrying the given description and the lowercased dot-free
extension as its file type. -/
theorem manifest_upsert_claim (df : List ManifestRow) (filePath fname desc ts : String) :
    (filePath ∈ df.map ManifestRow.filename →
      (modify_manifest_rows df filePath fname desc ts).map ManifestRow.filename
        = df.map ManifestRow.filename ∧
      (modify_manifest_rows df filePath fname desc ts).map ManifestRow.description
        = df.map ManifestRow.description ∧
      (modify_manifest_rows df filePath fname desc ts).map ManifestRow.fileType
        = df.map ManifestRow.fileType ∧
      (∀ r ∈ modify_manifest_rows df filePath fname desc ts,
        r.filename = filePath → r.timestamp = ts) ∧
      (∀ r ∈ df, r.filename ≠ filePath →
        r ∈ modify_manifest_rows df filePath fname desc ts)) ∧
    (filePath ∉ df.map ManifestRow.filename →
      modify_manifest_rows df filePath fname desc ts
        = df ++ [⟨filePath, desc, ts, fileTypeOf fname⟩]) ∧
    ((df.map ManifestRow.filename).Nodup →
      ((modify_manifest_rows df filePath fname desc ts).map ManifestRow.filename).Nodup) ∧
    (∀ calls : List (String × String × String × String),
      (df.map ManifestRow.filename).Nodup →
      ((calls.foldl manifestStep df).map ManifestRow.filename).Nodup) := by
  refine ⟨fun h => ⟨modify_filenames_of_mem df filePath fname desc ts h, ?_, ?_, ?_, ?_⟩,
    fun h => modify_not_mem_case h, modify_nodup df filePath fname desc ts,
    fun calls h => manifest_fold_nodup calls df h⟩
  · rw [modify_mem_case h, List.map_map]
    apply List.map_congr_left
    intro r _
    by_cases h2 : r.filename = filePath <;> simp [h2]
  · rw [modify_mem_case h, List.map_map]
    apply List.map_congr_left
    intro r _
    by_cases h2 : r.filename = filePath <;> simp [h2]
  · rw [modify_mem_case h]
    intro r hr hrf
    obtain ⟨r0, hr0, heq⟩ := List.mem_map.mp hr
    by_cases h2 : r0.filename = filePath
    · rw [if_pos h2] at heq; rw [← heq]
    · rw [if_neg h2] at heq; rw [← heq] at hrf; exact absurd hrf h2
  · intro r hr hne
    rw [modify_mem_case h]
    exact List.mem_map.mpr ⟨r, hr, by rw [if_neg hne]⟩

/-- Witness for C1: a second synchronization of `p/a.txt` preserves the
existing description, and a three-call sequence from the empty manifest
(with `primary/s1/a.txt` synchronized twice) has pairwise distinct
filenames. -/
theorem manifest_upsert_claim_witness :
    ((modify_manifest_rows [⟨"p/a.txt", "d1", "t0", "txt"⟩] "p/a.txt" "a.txt" "d2" "t1").map
        ManifestRow.description = ["d1"]) ∧
    (([("primary/s1/a.txt", "a.txt", "d", "t1"), ("primary/s1/a.txt", "a.txt", "d", "t2"),
        ("docs/b.txt", "b.txt", "d", "t3")].foldl manifestStep
        ([] : List ManifestRow)).map ManifestRow.filename).Nodup := by
  constructor
  · exact ((manifest_upsert_claim [⟨"p/a.txt", "d1", "t0", "txt"⟩] "p/a.txt" "a.txt" "d2"
      "t1").1 (by decide)).2.1
  · exact (manifest_upsert_claim ([] : List ManifestRow) "x" "x" "x" "x").2.2.2
      [("primary/s1/a.txt", "a.txt", "d", "t1"), ("primary/s1/a.txt", "a.txt", "d", "t2"),
        ("docs/b.txt", "b.txt", "d", "t3")] (by decide)

/-! ## C6: version normalization -/

/-- C6.  `_convert_version_format` is pure; it sends `2.0.0`, `2_0_0` and
`2` all to `2_0_0`, and in general its result always contains the `_`
separator and never a dot. -/
theorem convert_version_format_claim :
    convert_version_format "2.0.0" = "2_0_0" ∧
    convert_version_format "2_0_0" = "2_0_0" ∧
    convert_version_format "2" = "2_0_0" ∧
    (∀ v : String, '_' ∈ (convert_version_format v).data ∧
      '.' ∉ (convert_version_format v).data) := by
  refine ⟨by decide, by decide, by decide, fun v => ?_⟩
  have hdot : '.' ∉ (String.mk (v.data.map fun c => if c = '.' then '_' else c)).data := by
    intro hc
    obtain ⟨a, _, ha⟩ := List.mem_map.mp hc
    by_cases h2 : a = '.' <;> simp [h2] at ha
  have heq : convert_version_format v =
      (if '_' ∈ (String.mk (v.data.map fun c => if c = '.' then '_' else c)).data
       then String.mk (v.data.map fun c => if c = '.' then '_' else c)
       else String.mk (v.data.map fun c => if c = '.' then '_' else c) ++ "_0_0") := rfl
  rw [heq]
  by_cases h : '_' ∈ (String.mk (v.data.map fun c => if c = '.' then '_' else c)).data
  · rw [if_pos h]; exact ⟨h, hdot⟩
  · rw [if_neg h]
    rw [show ∀ s t : String, (s ++ t).data = s.data ++ t.data from
      fun s t => String.data_append s t]
    constructor
    · exact List.mem_append.mpr (Or.inr (by decide))
    · intro hc
      rcases List.mem_append.mp hc with hl | hr
      · exact hdot hl
      · revert hr; decide

/-! ## C3: `set_field` row-index convention -/

/-- C3.  On a loaded table with the default labels `0..n-1`, `set_field`
with `row_index = 2` mutates the first data row (label `0`), and a
non-integer `row_index` raises the `ValueError` of line 488.  But an
out-of-range index never raises: for every integer `row_index` the call
succeeds, because the pandas `loc` setter enlarges the frame on a missing
label instead of raising `ValueError` — `row_index = 1` silently appends a
new row labelled `-1` (the failing input of the claim). -/
theorem set_field_claim :
    (set_field ⟨["X"], [(0, [("X", "old")])]⟩ (.pyInt 2) "X" "v"
      = .ok ⟨["X"], [(0, [("X", "v")])]⟩) ∧
    (set_field ⟨["X"], [(0, [("X", "old")])]⟩ .pyOther "X" "v"
      = .error (.valueError "row_index should be 'int'.")) ∧
    (set_field ⟨["X"], [(0, [("X", "old")])]⟩ (.pyInt 1) "X" "v"
      = .ok ⟨["X"], [(0, [("X", "old")]), (-1, [("X", "v")])]⟩) ∧
    (∀ (t : LTable) (k : Int) (header value : String),
      ∃ t2, set_field t (.pyInt k) header value = .ok t2) := by
  exact ⟨rfl, rfl, rfl, fun t k header value => ⟨locSet t (k - 2) header value, rfl⟩⟩

/-! ## C8: `get_subject` lookup -/

/-- C8.  `get_subject` raises `ValueError` for a non-string id; for a
string id it never fails: `dict.get` returns `None` for an absent key, so
an unknown id yields `None` instead of the NotFound failure the claim
states (the `except` branch of lines 680-682 is unreachable).  A present
id returns the stored subject. -/
theorem get_subject_claim :
    (get_subject [] (.pyStr "sub-x") = .ok none) ∧
    (get_subject [("sub-1", "S1")] (.pyStr "sub-1") = .ok (some "S1")) ∧
    (get_subject [] (.pyInt 3)
      = .error (.valueError "Subject not found, please provide a string subject_sds_id!")) ∧
    (∀ (subjects : List (String × String)) (s : String),
      ∃ r, get_subject subjects (.pyStr s) = .ok r) := by
  exact ⟨rfl, rfl, rfl, fun subjects s => ⟨_, rfl⟩⟩

/-! ## C9: `update_by_json` -/

/-- C9.  Top-level keys overwrite the matched Value cell, top-level lists
are stored in their textual form, and an unmatched element name fails with
the raw `IndexError`.  But a *second-level* list value is stored
stringified only when the value written by the previous inner iteration
was a list: the `isinstance(value, list)` test of line 610 reads the stale
variable `value` rather than `value_1`, so the first list inside a nested
dictionary (here `k1`) is stored as the raw list, while its successor `k2`
is stringified — contradicting the claim for second-level keys. -/
theorem update_by_json_claim :
    (update_by_json [⟨"    k1", .jstr ""⟩, ⟨"    k2", .jstr ""⟩]
        [("A", .jdict [("k1", .jlist [.jnum 1]), ("k2", .jlist [.jnum 2])])]
      = .ok [⟨"    k1", .jlist [.jnum 1]⟩, ⟨"    k2", .jstr "[2]"⟩]) ∧
    (update_by_json [⟨"B", .jstr ""⟩] [("B", .jlist [.jnum 3])]
      = .ok [⟨"B", .jstr "[3]"⟩]) ∧
    (update_by_json [⟨"C", .jstr ""⟩] [("C", .jstr "v")] = .ok [⟨"C", .jstr "v"⟩]) ∧
    (update_by_json ([] : List DescRow) [("missing", .jstr "v")]
      = .error .indexError) :=
  ⟨rfl, rfl, rfl, rfl⟩

/-! ## C4: nested-directory guard -/

/-- Counterexample for C4 as stated: a source listing holding one regular
file *followed by* one subdirectory.  The loop copies `a.txt` and adds its
manifest row before reaching the subdirectory and aborting, so the call
does not copy zero files and does not leave the manifest unchanged. -/
theorem add_sample_data_guard_cex :
    ([("a.txt", false), ("sub", true)] : List (String × Bool)).any (fun e => e.2) = true ∧
    (add_sample_data_loop "/ds" "/ds/primary/sub-1/sam-1" "d" "t0"
      [("a.txt", false), ("sub", true)] []).warned = true ∧
    (add_sample_data_loop "/ds" "/ds/primary/sub-1/sam-1" "d" "t0"
      [("a.txt", false), ("sub", true)] []).copied = ["a.txt"] ∧
    (add_sample_data_loop "/ds" "/ds/primary/sub-1/sam-1" "d" "t0"
      [("a.txt", false), ("sub", true)] []).manifest
      = [⟨"primary/sub-1/sam-1/a.txt", "d", "t0", "txt"⟩] :=
  ⟨rfl, rfl, rfl, rfl⟩

/-- C4 (amended).  The loop warns exactly when the source listing holds a
directory, processes exactly the regular files *preceding the first
directory entry* (copying them and synchronizing the manifest, in listing
order), and abandons the rest; in particular, when the first listed item
is a directory, zero files are copied and the manifest is unchanged. -/
theorem add_sample_data_guard_amended (mf dest desc ts : String)
    (entries : List (String × Bool)) (m0 : List ManifestRow) :
    (add_sample_data_loop mf dest desc ts entries m0).warned
        = entries.any (fun e => e.2) ∧
    (add_sample_data_loop mf dest desc ts entries m0).copied
        = (entries.takeWhile (fun e => !e.2)).map Prod.fst ∧
    (add_sample_data_loop mf dest desc ts entries m0).manifest
        = (entries.takeWhile (fun e => !e.2)).foldl
            (fun m e => modify_manifest_rows m (manifest_rel_path mf dest e.1) e.1 desc ts)
            m0 ∧
    (entries.head?.map Prod.snd = some true →
      (add_sample_data_loop mf dest desc ts entries m0).copied = [] ∧
      (add_sample_data_loop mf dest desc ts entries m0).manifest = m0) := by
  induction entries generalizing m0 with
  | nil => exact ⟨rfl, rfl, rfl, by intro h; cases h⟩
  | cons e rest ih =>
      obtain ⟨fname, d⟩ := e
      cases d with
      | true =>
          refine ⟨rfl, rfl, rfl, fun _ => ⟨rfl, rfl⟩⟩
      | false =>
          have h := ih (modify_manifest_rows m0 (manifest_rel_path mf dest fname) fname desc ts)
          refine ⟨?_, ?_, ?_, ?_⟩
          · simpa [add_sample_data_loop] using h.1
          · simpa [add_sample_data_loop, List.takeWhile_cons] using h.2.1
          · simpa [add_sample_data_loop, List.takeWhile_cons] using h.2.2.1
          · intro hh; simp at hh

/-- Witness for C4 (amended): when the subdirectory is the first listed
item, zero files are copied and the manifest stays empty. -/
theorem add_sample_data_guard_amended_witness :
    (add_sample_data_loop "/ds" "/ds/primary/sub-1/sam-1" "d" "t0"
      [("sub", true)] []).copied = [] ∧
    (add_sample_data_loop "/ds" "/ds/primary/sub-1/sam-1" "d" "t0"
      [("sub", true)] []).manifest = [] :=
  (add_sample_data_guard_amended "/ds" "/ds/primary/sub-1/sam-1" "d" "t0"
    [("sub", true)] []).2.2.2 (by decide)

/-! ## Helper lemmas for table cells and `append` (C2) -/
theorem getCell_map_replace {r : Row} {c : String} (v : String)
    (h : r.any (fun kv => kv.1 = c) = true) :
    getCell (r.map (fun kv => if kv.1 = c then (kv.1, v) else kv)) c = some v := by
  induction r with
  | nil => simp at h
  | cons kv r ih =>
      by_cases hk : kv.1 = c
      · simp [getCell, hk]
      · have h2 : r.any (fun kv => kv.1 = c) = true := by
          simpa [hk] using h
        simpa [getCell, hk] using ih h2

theorem getCell_map_replace_ne {r : Row} {c c2 : String} (v : String) (h : c ≠ c2) :
    getCell (r.map (fun kv => if kv.1 = c then (kv.1, v) else kv)) c2 = getCell r c2 := by
  induction r with
  | nil => rfl
  | cons kv r ih =>
      by_cases hk : kv.1 = c
      · have hk2 : ¬ kv.1 = c2 := by rw [hk]; exact h
        simp [getCell, hk, hk2, ih, if_neg h]
      · by_cases hk2 : kv.1 = c2 <;> simp [getCell, hk, hk2, ih, Ne.symm h]

theorem getCell_append_of_none {r : Row} {c : String} (h : getCell r c = none) (l : Row) :
    getCell (r ++ l) c = getCell l c := by
  induction r with
  | nil => rfl
  | cons kv r ih =>
      by_cases hk : kv.1 = c
      · simp [getCell, hk] at h
      · simp only [getCell, hk, if_false, if_neg hk] at h
        simpa [getCell, hk] using ih h

theorem getCell_append_single_ne (r : Row) {c c2 : String} (v : String) (h : c ≠ c2) :
    getCell (r ++ [(c, v)]) c2 = getCell r c2 := by
  induction r with
  | nil => simp [getCell, h]
  | cons kv r ih =>
      by_cases hk : kv.1 = c2 <;> simp [getCell, hk, ih]

theorem getCell_eq_none_of_any_false {r : Row} {c : String}
    (h : r.any (fun kv => kv.1 = c) = false) : getCell r c = none := by
  induction r with
  | nil => rfl
  | cons kv r ih =>
      simp only [List.any_cons, Bool.or_eq_false_iff, decide_eq_false_iff_not] at h
      simp [getCell, h.1, ih h.2]

theorem getCell_setCell_same (r : Row) (c v : String) :
    getCell (setCell r c v) c = some v := by
  unfold setCell
  by_cases h : r.any (fun kv => kv.1 = c) = true
  · rw [if_pos h]; exact getCell_map_replace v h
  · rw [if_neg h]
    rw [getCell_append_of_none (getCell_eq_none_of_any_false (Bool.eq_false_iff.mpr h))]
    simp [getCell]

theorem getCell_setCell_ne (r : Row) {c c2 : String} (v : String) (h : c ≠ c2) :
    getCell (setCell r c v) c2 = getCell r c2 := by
  unfold setCell
  by_cases hany : r.any (fun kv => kv.1 = c) = true
  · rw [if_pos hany]; exact getCell_map_replace_ne v h
  · rw [if_neg hany]; exact getCell_append_single_ne r v h

theorem mergeCells_not_mem {row : Row} {c : String} (r0 : Row)
    (h : c ∉ row.map Prod.fst) :
    getCell (row.foldl (fun r kv => setCell r kv.1 kv.2) r0) c = getCell r0 c := by
  induction row generalizing r0 with
  | nil => rfl
  | cons kv row ih =>
      have h1 : c ≠ kv.1 := fun hc => h (by simp [hc])
      have h2 : c ∉ row.map Prod.fst := fun hc => h (by simp [hc])
      rw [List.foldl_cons, ih (setCell r0 kv.1 kv.2) h2]
      exact getCell_setCell_ne r0 kv.2 (Ne.symm h1)

theorem mergeCells_mem {row : Row} {c v : String} :
    ∀ r0 : Row, (row.map Prod.fst).Nodup → (c, v) ∈ row →
      getCell (row.foldl (fun r kv => setCell r kv.1 kv.2) r0) c = some v := by
  induction row with
  | nil => intro r0 _ h; cases h
  | cons kv row ih =>
      intro r0 hnd h
      rcases List.mem_cons.mp h with heq | hmem
      · have hkv1 : kv.1 = c := by rw [← heq]
        have hkv2 : kv.2 = v := by rw [← heq]
        have hnotin : c ∉ row.map Prod.fst := by
          rw [List.map_cons, hkv1] at hnd
          exact (List.nodup_cons.mp hnd).1
        rw [List.foldl_cons, mergeCells_not_mem _ hnotin, hkv1, hkv2]
        exact getCell_setCell_same r0 c v
      · have hnd2 : (row.map Prod.fst).Nodup := by
          rw [List.map_cons] at hnd
          exact (List.nodup_cons.mp hnd).2
        rw [List.foldl_cons]
        exact ih (setCell r0 kv.1 kv.2) hnd2 hmem



theorem matchingIndices_lt {rows : List Row} {c v : String} {i : Nat}
    (h : matchingIndices rows c v = [i]) : i < rows.length := by
  have hm : i ∈ matchingIndices rows c v := by rw [h]; exact List.mem_singleton_self i
  unfold matchingIndices at hm
  exact List.mem_range.mp (List.mem_filter.mp hm).1

theorem append_claim (t : Table) (row : Row) :
    (append t row true none = .error (.valueError
      "Provide which column in metadata_file is unique. Ex: subject_id")) ∧
    (append t row false none
      = .ok ⟨addCols t.cols (row.map Prod.fst), t.rows ++ [row]⟩) ∧
    (∀ uc uv, getCell row uc = some uv → matchingIndices t.rows uc uv = [] →
      append t row true (some uc)
        = .ok ⟨addCols t.cols (row.map Prod.fst), t.rows ++ [row]⟩) ∧
    (∀ uc uv i, getCell row uc = some uv → matchingIndices t.rows uc uv = [i] →
      append t row true (some uc)
        = .ok ⟨addCols t.cols (row.map Prod.fst), mergeRowAt t.rows i row⟩ ∧
      (mergeRowAt t.rows i row).length = t.rows.length ∧
      (∀ j, j ≠ i → (mergeRowAt t.rows i row).getD j [] = t.rows.getD j []) ∧
      ((row.map Prod.fst).Nodup → ∀ c v2, (c, v2) ∈ row →
        getCell ((mergeRowAt t.rows i row).getD i []) c = some v2) ∧
      (∀ c, c ∉ row.map Prod.fst →
        getCell ((mergeRowAt t.rows i row).getD i []) c = getCell (t.rows.getD i []) c)) ∧
    (∀ c, c ∉ t.cols → (∀ r0 ∈ t.rows, ∀ kv ∈ r0, kv.1 ∈ t.cols) →
      ∀ r0 ∈ t.rows, getCell r0 c = none) ∧
    ((do
      let t1 ← append ⟨["subject id"], []⟩
        [("subject id", "sub-1"), ("age", "30")] true (some "subject id")
      append t1 [("subject id", "sub-1"), ("sex", "F")] true (some "subject id") :
      Except PyError Table)
      = .ok ⟨["subject id", "age", "sex"],
          [[("subject id", "sub-1"), ("age", "30"), ("sex", "F")]]⟩) := by
  refine ⟨rfl, rfl, ?_, ?_, ?_, rfl⟩
  · intro uc uv h1 h2
    simp [append, check_row_exist, h1, h2]
    rfl
  · intro uc uv i h1 h2
    have hlt : i < t.rows.length := matchingIndices_lt h2
    have hne : (i : Int) ≠ -1 := by omega
    refine ⟨?_, List.length_set t.rows i _, ?_, ?_, ?_⟩
    · simp [append, check_row_exist, h1, h2, hne, mergeRowAt]
      rfl
    · intro j hj
      unfold mergeRowAt
      rw [List.getD_eq_get?, List.getD_eq_get?, List.get?_set_ne _ _ (Ne.symm hj)]
      rfl
    · intro hnd c v2 hcv
      unfold mergeRowAt
      rw [List.getD_eq_get?, List.get?_set_eq_of_lt _ hlt, Option.getD_some]
      exact mergeCells_mem _ hnd hcv
    · intro c hc
      unfold mergeRowAt
      rw [List.getD_eq_get?, List.get?_set_eq_of_lt _ hlt, Option.getD_some]
      exact mergeCells_not_mem _ hc
  · intro c hc hwf r0 hr0
    apply getCell_eq_none_of_any_false
    simp only [List.any_eq_false, decide_eq_false_iff_not]
    intro kv hkv heq
    exact hc (of_decide_eq_true heq ▸ hwf r0 hr0 kv hkv)

theorem append_claim_witness :
    (append ⟨["subject id"], []⟩ [("x", "1")] true none = .error (.valueError
      "Provide which column in metadata_file is unique. Ex: subject_id")) ∧
    ((mergeRowAt [[("subject id", "sub-1"), ("age", "30")]] 0
        [("subject id", "sub-1"), ("sex", "F")]).length = 1) ∧
    (getCell ((mergeRowAt [[("subject id", "sub-1"), ("age", "30")]] 0
        [("subject id", "sub-1"), ("sex", "F")]).getD 0 []) "sex" = some "F") ∧
    (getCell ((mergeRowAt [[("subject id", "sub-1"), ("age", "30")]] 0
        [("subject id", "sub-1"), ("sex", "F")]).getD 0 []) "age" = some "30") := by
  have h := append_claim ⟨["subject id", "age"], [[("subject id", "sub-1"), ("age", "30")]]⟩
    [("subject id", "sub-1"), ("sex", "F")]
  have hm := h.2.2.2.1 "subject id" "sub-1" 0 (by decide) (by decide)
  exact ⟨(append_claim ⟨["subject id"], []⟩ [("x", "1")]).1,
    hm.2.1,
    hm.2.2.2.1 (by decide) "sex" "F" (by decide),
    (hm.2.2.2.2 "age" (by decide)).trans (by decide)⟩

/-! C5 helpers -/

theorem fsIsDir_of_mem_subfolders {fs : List (List String × Bool)} {folder sub : List String}
    (h : sub ∈ get_sub_folder_paths_in_folder fs folder) : fsIsDir fs sub = true := by
  unfold get_sub_folder_paths_in_folder at h
  obtain ⟨e, he, heq⟩ := List.mem_map.mp h
  have hf := List.mem_filter.mp he
  unfold fsIsDir
  simp only [List.any_eq_true]
  refine ⟨e, hf.1, ?_⟩
  have hb : e.2 = false := by
    have h3 := hf.2
    simp only [Bool.and_eq_true] at h3
    simpa using h3.1.1
  simp [heq, hb]

theorem sample_fold_length (fs : List (List String × Bool)) (l : List (List String))
    (h : ∀ sub ∈ l, fsIsDir fs sub = true) :
    ∀ acc : List (List String),
      (l.foldl (fun acc sub =>
          if fsIsDir fs sub then acc ++ get_sub_folder_paths_in_folder fs sub else acc)
        acc).length
        = acc.length
          + (l.map (fun sub => (get_sub_folder_paths_in_folder fs sub).length)).sum := by
  induction l with
  | nil => intro acc; simp
  | cons sub l ih =>
      intro acc
      rw [List.foldl_cons, if_pos (h sub (List.mem_cons_self _ _))]
      rw [ih (fun q hq => h q (List.mem_cons_of_mem _ hq)) (acc ++ _)]
      simp [List.length_append]
      omega

theorem mem_set_values {tbl : List DDRow} {el : String} {v : Cell} {row : DDRow}
    (h : row ∈ metadata_set_values tbl el v) :
    (row.element = el → row.value = v) ∧ (row.element ≠ el → row ∈ tbl) := by
  obtain ⟨r0, hr0, heq⟩ := List.mem_map.mp h
  by_cases hc : r0.element = el
  · rw [if_pos hc] at heq
    constructor
    · intro _; rw [← heq]
    · intro hne
      exfalso
      apply hne
      rw [← heq]
      exact hc
  · rw [if_neg hc] at heq
    constructor
    · intro hel
      rw [← heq] at hel
      exact absurd hel hc
    · intro _
      rw [← heq]
      exact hr0

/-- C5.  After a count recompute, the table is persisted, every row named
`Number of subjects` holds the number of immediate subdirectories of the
primary folder, every row named `Number of samples` holds the sum of the
immediate-subdirectory counts of those subject folders, and the scenario
`sub-1: [sam-1, sam-2], sub-2: [sam-1]` yields 2 and 3. -/
theorem count_recompute_claim (fs : List (List String × Bool)) (primary : List String)
    (dd : List DDRow) :
    ((update_sub_sam_nums_in_dataset_description fs primary dd).2 = true) ∧
    (∀ row ∈ (update_sub_sam_nums_in_dataset_description fs primary dd).1,
      row.element = "Number of subjects" →
      row.value = .cnat (get_sub_folder_paths_in_folder fs primary).length) ∧
    (∀ row ∈ (update_sub_sam_nums_in_dataset_description fs primary dd).1,
      row.element = "Number of samples" →
      row.value = .cnat ((get_sub_folder_paths_in_folder fs primary).map
        (fun sub => (get_sub_folder_paths_in_folder fs sub).length)).sum) ∧
    (update_sub_sam_nums_in_dataset_description exampleFs ["ds", "primary"] exampleDD
      = ([⟨"Number of subjects", .cnat 2⟩, ⟨"Number of samples", .cnat 3⟩], true)) := by
  refine ⟨rfl, ?_, ?_, rfl⟩
  · intro row hrow hel
    unfold update_sub_sam_nums_in_dataset_description at hrow
    have h2 := mem_set_values hrow
    have hne : row.element ≠ "Number of samples" := by rw [hel]; decide
    have h1 := mem_set_values (h2.2 hne)
    exact h1.1 hel
  · intro row hrow hel
    unfold update_sub_sam_nums_in_dataset_description at hrow
    have h2 := (mem_set_values hrow).1 hel
    rw [h2]
    congr 1
    have hall : ∀ sub ∈ get_sub_folder_paths_in_folder fs primary, fsIsDir fs sub = true :=
      fun sub hs => fsIsDir_of_mem_subfolders hs
    simpa using sample_fold_length fs (get_sub_folder_paths_in_folder fs primary) hall []

/-- Witness for C5: the scenario table is persisted and its subject-count
row indeed holds the subject count of the scenario tree. -/
theorem count_recompute_claim_witness :
    (update_sub_sam_nums_in_dataset_description exampleFs ["ds", "primary"] exampleDD).2
      = true ∧
    (⟨"Number of subjects", Cell.cnat 2⟩ : DDRow).value
      = .cnat (get_sub_folder_paths_in_folder exampleFs ["ds", "primary"]).length := by
  have h := count_recompute_claim exampleFs ["ds", "primary"] exampleDD
  exact ⟨h.1, h.2.1 ⟨"Number of subjects", .cnat 2⟩ (by decide) rfl⟩



/-! C7 -/

/-- C7.  `delete_data`: a missing path raises `FileNotFoundError`; an
existing single file is unlinked, its manifest row (matched by the path
made relative to the dataset root) is removed and the manifest is
persisted; an existing directory is removed recursively (together with
everything it prefixes) and the manifest table and the persisted set are
untouched. -/
theorem delete_data_claim (s : DState) (p : List String) :
    (s.fs.any (fun e => e.1 = p) = false →
      delete_data s p = .error (.fileNotFoundError "The file is not existing")) ∧
    (s.fs.any (fun e => e.1 = p && e.2) = true →
      delete_data s p = .ok { s with
        fs := s.fs.filter (fun e => !(e.1 = p : Bool)),
        manifest := manifest_remove_row s.manifest (relative_to_root s.datasetPath p),
        saved := s.saved ++ ["manifest"] }) ∧
    (s.fs.any (fun e => e.1 = p) = true →
      s.fs.any (fun e => e.1 = p && e.2) = false →
      delete_data s p = .ok { s with
        fs := s.fs.filter (fun e => !(p.isPrefixOf e.1 : Bool)) }) := by
  refine ⟨?_, ?_, ?_⟩
  · intro h0
    unfold delete_data
    rw [h0]
    rfl
  · intro h2
    have h1 : s.fs.any (fun e => e.1 = p) = true := by
      simp only [List.any_eq_true] at h2 ⊢
      obtain ⟨e, he, hpe⟩ := h2
      simp only [Bool.and_eq_true] at hpe
      exact ⟨e, he, hpe.1⟩
    unfold delete_data py_delete_data
    rw [h1, h2]
    rfl
  · intro h1 h2
    unfold delete_data py_delete_data
    rw [h1, h2]
    rfl

/-- Witness for C7: on the concrete example state, deleting the single
file removes its manifest row and persists the manifest; deleting the
sample directory removes the subtree and leaves the manifest alone; a
missing path fails. -/
theorem delete_data_claim_witness :
    delete_data exampleState ["ds", "nope"]
      = .error (.fileNotFoundError "The file is not existing") ∧
    delete_data exampleState ["ds", "primary", "sub-1", "sam-1", "a.txt"]
      = .ok { exampleState with
          fs := exampleState.fs.filter
            (fun e => !(e.1 = ["ds", "primary", "sub-1", "sam-1", "a.txt"] : Bool)),
          manifest := manifest_remove_row exampleState.manifest
            (relative_to_root exampleState.datasetPath
              ["ds", "primary", "sub-1", "sam-1", "a.txt"]),
          saved := exampleState.saved ++ ["manifest"] } ∧
    delete_data exampleState ["ds", "primary", "sub-1", "sam-1"]
      = .ok { exampleState with
          fs := exampleState.fs.filter
            (fun e => !(List.isPrefixOf ["ds", "primary", "sub-1", "sam-1"] e.1 : Bool)) } := by
  have h := delete_data_claim exampleState
  exact ⟨h ["ds", "nope"] |>.1 (by decide),
    (h ["ds", "primary", "sub-1", "sam-1", "a.txt"]).2.1 (by decide),
    (h ["ds", "primary", "sub-1", "sam-1"]).2.2 (by decide) (by decide)⟩

/-! C10 helpers -/

theorem frame_refl (s : DState) : ManifestOnlyFrame s s :=
  ⟨rfl, rfl, rfl, rfl, fun _ hn => Or.inl hn⟩

theorem frame_trans {s1 s2 s3 : DState}
    (h12 : ManifestOnlyFrame s1 s2) (h23 : ManifestOnlyFrame s2 s3) :
    ManifestOnlyFrame s1 s3 := by
  obtain ⟨a1, a2, a3, a4, a5⟩ := h12
  obtain ⟨b1, b2, b3, b4, b5⟩ := h23
  refine ⟨b1.trans a1, b2.trans a2, b3.trans a3, b4.trans a4, fun n hn => ?_⟩
  rcases b5 n hn with hm | hm
  · exact a5 n hm
  · exact Or.inr hm

theorem delete_data_frame {s : DState} {p : List String} {s2 : DState}
    (h : delete_data s p = .ok s2) : ManifestOnlyFrame s s2 := by
  unfold delete_data py_delete_data at h
  by_cases h0 : s.fs.any (fun e => e.1 = p) = true
  · rw [h0] at h
    by_cases hf : s.fs.any (fun e => e.1 = p && e.2) = true
    · rw [hf] at h
      simp only [Bool.not_true, if_false, reduceIte] at h
      cases h
      exact ⟨rfl, rfl, rfl, rfl, fun n hn => by
        rcases List.mem_append.mp hn with hm | hm
        · exact Or.inl hm
        · exact Or.inr (by simpa using hm)⟩
    · rw [Bool.eq_false_iff.mpr hf] at h
      simp only [Bool.not_true, reduceIte] at h
      cases h
      exact frame_refl _
  · rw [Bool.eq_false_iff.mpr h0] at h
    simp at h

theorem except_bind_inv {α β : Type} {x : Except PyError α} {f : α → Except PyError β}
    {b : β} (h : (x >>= f) = .ok b) : ∃ a, x = .ok a ∧ f a = .ok b := by
  cases x with
  | error e => exact Except.noConfusion h
  | ok a => exact ⟨a, rfl, h⟩

theorem foldlM_delete_data_frame (l : List (List String)) :
    ∀ s s2 : DState, l.foldlM delete_data s = .ok s2 → ManifestOnlyFrame s s2 := by
  induction l with
  | nil =>
      intro s s2 h
      cases h
      exact frame_refl _
  | cons q l ih =>
      intro s s2 h
      rw [List.foldlM_cons] at h
      obtain ⟨s1, hq, h2⟩ := except_bind_inv h
      exact frame_trans (delete_data_frame hq) (ih s1 s2 h2)

theorem delete_sample_frame {s : DState} {p : List String} {dt : String}
    (hdt : dt ≠ "primary") {s2 : DState}
    (h : delete_sample s p dt = .ok s2) : ManifestOnlyFrame s s2 := by
  unfold delete_sample at h
  by_cases h0 : s.fs.any (fun e => e.1 = p) = true
  · rw [h0] at h
    by_cases hd : s.fs.any (fun e => e.1 = p && !e.2) = true
    · rw [hd] at h
      simp only [Bool.not_true, reduceIte] at h
      obtain ⟨s1, hfold, h2⟩ := except_bind_inv h
      rw [if_neg hdt] at h2
      cases h2
      refine frame_trans (foldlM_delete_data_frame _ s s1 hfold) ?_
      exact ⟨rfl, rfl, rfl, rfl, fun n hn => Or.inl hn⟩
    · rw [Bool.eq_false_iff.mpr hd] at h
      simp at h
  · rw [Bool.eq_false_iff.mpr h0] at h
    simp at h

theorem foldlM_delete_sample_frame {dt : String} (hdt : dt ≠ "primary")
    (l : List (List String)) :
    ∀ s s2 : DState, (l.foldlM (fun st q => delete_sample st q dt) s = .ok s2) →
      ManifestOnlyFrame s s2 := by
  induction l with
  | nil =>
      intro s s2 h
      cases h
      exact frame_refl _
  | cons q l ih =>
      intro s s2 h
      rw [List.foldlM_cons] at h
      obtain ⟨s1, hq, h2⟩ := except_bind_inv h
      exact frame_trans (delete_sample_frame hdt hq) (ih s1 s2 h2)

/-- C10.  A successful `delete_sample` or `delete_subject` whose
`data_type` is not `primary` leaves the subjects table, the samples table
and the `dataset_description` table exactly as they were and persists
neither; the only metadata file such a call may persist is the manifest
(via `delete_data` on contained files). -/
theorem nonprimary_delete_frame_claim (s : DState) (p : List String) (dt : String)
    (hdt : dt ≠ "primary") :
    (∀ s2, delete_sample s p dt = .ok s2 →
      s2.subjects = s.subjects ∧ s2.samples = s.samples ∧
      s2.dataset_description = s.dataset_description ∧
      (∀ n ∈ s2.saved, n ∈ s.saved ∨ n = "manifest")) ∧
    (∀ s2, delete_subject s p dt = .ok s2 →
      s2.subjects = s.subjects ∧ s2.samples = s.samples ∧
      s2.dataset_description = s.dataset_description ∧
      (∀ n ∈ s2.saved, n ∈ s.saved ∨ n = "manifest")) := by
  constructor
  · intro s2 h
    obtain ⟨_, b2, b3, b4, b5⟩ := delete_sample_frame hdt h
    exact ⟨b2, b3, b4, b5⟩
  · intro s2 h
    unfold delete_subject at h
    by_cases h0 : s.fs.any (fun e => e.1 = p) = true
    · rw [h0] at h
      by_cases hd : s.fs.any (fun e => e.1 = p && !e.2) = true
      · rw [hd] at h
        simp only [Bool.not_true, reduceIte] at h
        obtain ⟨s1, hfold, h2⟩ := except_bind_inv h
        rw [if_neg hdt] at h2
        cases h2
        obtain ⟨_, b2, b3, b4, b5⟩ :=
          frame_trans (foldlM_delete_sample_frame hdt _ s s1 hfold)
            (⟨rfl, rfl, rfl, rfl, fun n hn => Or.inl hn⟩ :
              ManifestOnlyFrame s1 _)
        exact ⟨b2, b3, b4, b5⟩
      · rw [Bool.eq_false_iff.mpr hd] at h
        simp at h
    · rw [Bool.eq_false_iff.mpr h0] at h
      simp at h

/-- Witness for C10: deleting the sample folder of the example state with
`data_type = "derivative"` succeeds, leaves the three tables unchanged and
persists only the manifest. -/
theorem nonprimary_delete_frame_claim_witness :
    exampleDeleteResult.subjects = exampleState.subjects ∧
    exampleDeleteResult.samples = exampleState.samples ∧
    exampleDeleteResult.dataset_description = exampleState.dataset_description ∧
    ("manifest" ∈ exampleState.saved ∨ ("manifest" : String) = "manifest") := by
  have h := (nonprimary_delete_frame_claim exampleState
    ["ds", "primary", "sub-1", "sam-1"] "derivative" (by decide)).1
    exampleDeleteResult (by rfl)
  exact ⟨h.1, h.2.1, h.2.2.1, h.2.2.2 "manifest" (by decide)⟩

end SparcMe
